import Mathlib

/-!
Shallow embedding of `pre_commit/util.py`: the process-execution helpers
(`cmd_output_b`, `cmd_output`, `cmd_output_p`, `Pty`), the error model
(`CalledProcessError`), and the filesystem utilities
(`clean_path_on_failure`, `rmtree`, `make_executable`).

Python bytes are modelled as `List Nat` (byte values), Python `str` as a
list of Unicode code points, file descriptors as `Nat`, exit codes as `Int`.
OS interactions (the executable resolver, process spawning, `os.read` on the
pty, the individual delete operations of `shutil.rmtree`) are modelled as
explicit oracle parameters / event traces, so every function is pure and
executable.
-/

/-- Python `bytes`: a list of byte values. -/
abbrev Bytes := List Nat

/-- Python `str`: a list of Unicode code points (the result of `bytes.decode()`). -/
abbrev PyStr := List Nat

/-- Values a caller can pass for the `stdin` / `stdout` / `stderr` kwargs of
`subprocess.Popen`: `subprocess.PIPE`, `subprocess.STDOUT` (merge into
stdout), an open handle on `os.devnull`, the pty write end, or some other
file descriptor. -/
inductive StreamCfg
  | pipe
  | stdoutMerge
  | devnullHandle
  | ptyWrite
  | fd (n : Nat)
deriving DecidableEq, Repr

/-- The three stream kwargs of a spawn call; `none` means the caller did not
pass the key (other kwargs such as `cwd`/`env` pass through unmodelled). -/
structure Kwargs where
  stdin : Option StreamCfg
  stdout : Option StreamCfg
  stderr : Option StreamCfg
deriving DecidableEq, Repr

/-- Model of `_setdefault_kwargs`: `kwargs.setdefault(arg, subprocess.PIPE)` for each of
`stdin`, `stdout`, `stderr`. -/
def _setdefault_kwargs (k : Kwargs) : Kwargs :=
  { stdin := some (k.stdin.getD .pipe)
    stdout := some (k.stdout.getD .pipe)
    stderr := some (k.stderr.getD .pipe) }

/-- Modelled from the spec: `parse_shebang.ExecutableNotFoundError` is not under
`src/`; the spec describes the resolver as an external collaborator that
"signals resolution failure with enough information to synthesize a
`(returncode, stdout, stderr)` triple without ever spawning a process".
The payload carries the stdout/stderr parts of that triple. -/
structure ExecutableNotFoundError where
  stdoutPayload : Bytes
  stderrPayload : Option Bytes
deriving DecidableEq, Repr

/-- Modelled from the spec: `ExecutableNotFoundError.to_output` synthesizes the
`(returncode, stdout, stderr)` triple; the "exit code conventionally signals
'not found' (e.g. 1)". -/
def ExecutableNotFoundError.to_output (e : ExecutableNotFoundError) :
    Int × Bytes × Option Bytes :=
  (1, e.stdoutPayload, e.stderrPayload)

/-- The executable resolver `parse_shebang.normalize_cmd`, as an oracle: either
the normalized command vector or an `ExecutableNotFoundError`. -/
abbrev Resolver := List String → Except ExecutableNotFoundError (List String)

/-- What one spawned process does: its exit code and what `proc.communicate()`
returns for each captured stream (`none` when a stream was not piped). -/
structure ProcRun where
  returncode : Int
  stdout : Option Bytes
  stderr : Option Bytes
deriving DecidableEq, Repr

/-- The OS spawn + communicate step, as an oracle from the (resolved) command
and the spawn kwargs to the process's behaviour. -/
abbrev Spawn := List String → Kwargs → ProcRun

/-- Model of `CalledProcessError(returncode, cmd, expected_returncode, stdout, stderr)`:
owns a snapshot of the invocation context. -/
structure CalledProcessError where
  returncode : Int
  cmd : List String
  expected_returncode : Int
  stdout : Option Bytes
  stderr : Option Bytes
deriving DecidableEq, Repr

/-- The final exit-code check of `cmd_output_b`:
`if retcode is not None and retcode != returncode: raise CalledProcessError(...)`,
otherwise `return returncode, stdout_b, stderr_b`. -/
def checkRetcode (cmd : List String) (retcode : Option Int) (returncode : Int)
    (stdout_b stderr_b : Option Bytes) :
    Except CalledProcessError (Int × Option Bytes × Option Bytes) :=
  match retcode with
  | some rc =>
    if rc ≠ returncode then
      .error ⟨returncode, cmd, rc, stdout_b, stderr_b⟩
    else
      .ok (returncode, stdout_b, stderr_b)
  | none => .ok (returncode, stdout_b, stderr_b)

/-- Model of `cmd_output_b(*cmd, retcode=0, **kwargs)`: default the stream kwargs to
pipes, resolve the command; on resolution failure synthesize the result from
`e.to_output()` (no spawn), otherwise spawn and collect the real exit code and
the communicated streams; finally apply the exit-code expectation check.
In the Python source `retcode` defaults to `0` (`some 0` here). -/
def cmd_output_b (resolve : Resolver) (spawn : Spawn) (cmd : List String)
    (retcode : Option Int) (kwargs : Kwargs) :
    Except CalledProcessError (Int × Option Bytes × Option Bytes) :=
  let kwargs2 := _setdefault_kwargs kwargs
  match resolve cmd with
  | .error e =>
    match e.to_output with
    | (returncode, stdout_b, stderr_b) =>
      checkRetcode cmd retcode returncode (some stdout_b) stderr_b
  | .ok cmd2 =>
    let proc := spawn cmd2 kwargs2
    checkRetcode cmd2 retcode proc.returncode proc.stdout proc.stderr

/-- C1 -- counterexample. With the default exit-code expectation (`retcode=0`),
an invocation whose executable cannot be resolved does NOT come back as
ordinary data: the synthesized not-found result has exit code 1, which the
default expectation 0 rejects, so `cmd_output_b` raises a
`CalledProcessError` built from the synthesized payload. -/
theorem c1_counterexample :
    cmd_output_b (fun _ => .error ⟨[], none⟩) (fun _ _ => ⟨0, some [], some []⟩)
        ["executable-that-does-not-exist"] (some 0) ⟨none, none, none⟩
      = .error ⟨1, ["executable-that-does-not-exist"], 0, some [], none⟩ := by
  rfl

/-- C1 -- amended. When the executable cannot be resolved and `cmd_output_b` is
called with its default exit-code expectation (`retcode=0`), the result is
synthesized from the resolver's failure payload with the non-zero conventional
exit code 1 and no process is spawned (the outcome is the same for every spawn
oracle); but because 1 differs from the expected 0, that outcome is raised as a
`CalledProcessError` carrying the synthesized payload, not returned as data.
It is returned as ordinary data exactly when the expectation is unset
(`retcode=None`) or happens to equal 1. -/
theorem c1_amended (resolve : Resolver) (cmd : List String) (kwargs : Kwargs)
    (e : ExecutableNotFoundError) (h : resolve cmd = .error e) :
    (∀ spawn : Spawn,
      cmd_output_b resolve spawn cmd (some 0) kwargs
        = .error ⟨1, cmd, 0, some e.stdoutPayload, e.stderrPayload⟩) ∧
    (1 : Int) ≠ 0 ∧
    (∀ spawn : Spawn,
      cmd_output_b resolve spawn cmd none kwargs
        = .ok (1, some e.stdoutPayload, e.stderrPayload)) ∧
    (∀ spawn : Spawn,
      cmd_output_b resolve spawn cmd (some 1) kwargs
        = .ok (1, some e.stdoutPayload, e.stderrPayload)) := by
  refine ⟨fun spawn => ?_, by decide, fun spawn => ?_, fun spawn => ?_⟩ <;>
    simp [cmd_output_b, h, ExecutableNotFoundError.to_output, checkRetcode]

/-- C1 -- witness for the amended theorem at a concrete resolver. -/
theorem c1_amended_witness :
    (∀ spawn : Spawn,
      cmd_output_b (fun _ => .error ⟨[110], some [111]⟩) spawn ["x"] (some 0) ⟨none, none, none⟩
        = .error ⟨1, ["x"], 0, some [110], some [111]⟩) ∧
    (1 : Int) ≠ 0 ∧
    (∀ spawn : Spawn,
      cmd_output_b (fun _ => .error ⟨[110], some [111]⟩) spawn ["x"] none ⟨none, none, none⟩
        = .ok (1, some [110], some [111])) ∧
    (∀ spawn : Spawn,
      cmd_output_b (fun _ => .error ⟨[110], some [111]⟩) spawn ["x"] (some 1) ⟨none, none, none⟩
        = .ok (1, some [110], some [111])) :=
  c1_amended (fun _ => .error ⟨[110], some [111]⟩) ["x"] ⟨none, none, none⟩
    ⟨[110], some [111]⟩ rfl

/-- C2: with the exit-code expectation unset (`retcode=None`), `cmd_output_b`
never raises on exit-code mismatch: it always returns `.ok` with the actual
`(exit_code, stdout, stderr)` triple, both when the resolver fails (the
synthesized triple) and when a process runs (that process's actual triple),
whatever the exit code. -/
theorem c2_retcode_none_never_raises (resolve : Resolver) (spawn : Spawn)
    (cmd : List String) (kwargs : Kwargs) :
    (cmd_output_b resolve spawn cmd none kwargs).isOk = true ∧
    (∀ e : ExecutableNotFoundError, resolve cmd = .error e →
      cmd_output_b resolve spawn cmd none kwargs
        = .ok (1, some e.stdoutPayload, e.stderrPayload)) ∧
    (∀ cmd2 : List String, resolve cmd = .ok cmd2 →
      cmd_output_b resolve spawn cmd none kwargs
        = .ok ((spawn cmd2 (_setdefault_kwargs kwargs)).returncode,
               (spawn cmd2 (_setdefault_kwargs kwargs)).stdout,
               (spawn cmd2 (_setdefault_kwargs kwargs)).stderr)) := by
  refine ⟨?_, fun e he => ?_, fun cmd2 hc => ?_⟩
  · cases h : resolve cmd <;>
      simp [cmd_output_b, h, ExecutableNotFoundError.to_output, checkRetcode,
        Except.isOk, Except.toBool]
  · simp [cmd_output_b, he, ExecutableNotFoundError.to_output, checkRetcode]
  · simp [cmd_output_b, hc, checkRetcode]

/-- C2 -- witness at a concrete resolver, spawn oracle and command, with a
"mismatching" exit code 7. -/
theorem c2_retcode_none_never_raises_witness :
    (cmd_output_b (fun c => .ok c) (fun _ _ => ⟨7, some [97], some [98]⟩)
        ["x"] none ⟨none, none, none⟩).isOk = true ∧
    (∀ e : ExecutableNotFoundError, (fun c => .ok c : Resolver) ["x"] = .error e →
      cmd_output_b (fun c => .ok c) (fun _ _ => ⟨7, some [97], some [98]⟩)
          ["x"] none ⟨none, none, none⟩
        = .ok (1, some e.stdoutPayload, e.stderrPayload)) ∧
    (∀ cmd2 : List String, (fun c => .ok c : Resolver) ["x"] = .ok cmd2 →
      cmd_output_b (fun c => .ok c) (fun _ _ => ⟨7, some [97], some [98]⟩)
          ["x"] none ⟨none, none, none⟩
        = .ok (((fun _ _ => ⟨7, some [97], some [98]⟩ : Spawn) cmd2
                  (_setdefault_kwargs ⟨none, none, none⟩)).returncode,
               ((fun _ _ => ⟨7, some [97], some [98]⟩ : Spawn) cmd2
                  (_setdefault_kwargs ⟨none, none, none⟩)).stdout,
               ((fun _ _ => ⟨7, some [97], some [98]⟩ : Spawn) cmd2
                  (_setdefault_kwargs ⟨none, none, none⟩)).stderr)) :=
  c2_retcode_none_never_raises (fun c => .ok c) (fun _ _ => ⟨7, some [97], some [98]⟩)
    ["x"] ⟨none, none, none⟩

/-- C3: when an expected exit code is supplied and violated, the raised
`CalledProcessError`'s fields are exactly the invocation's command (the
resolved command vector when a process ran; the original one when resolution
failed), the actual exit code, the supplied expected exit code, and the
captured stdout and stderr of that run. -/
theorem c3_mismatch_error_fields (resolve : Resolver) (spawn : Spawn)
    (cmd : List String) (kwargs : Kwargs) (rc : Int) :
    (∀ cmd2 : List String, resolve cmd = .ok cmd2 →
      rc ≠ (spawn cmd2 (_setdefault_kwargs kwargs)).returncode →
      cmd_output_b resolve spawn cmd (some rc) kwargs
        = .error ⟨(spawn cmd2 (_setdefault_kwargs kwargs)).returncode, cmd2, rc,
                  (spawn cmd2 (_setdefault_kwargs kwargs)).stdout,
                  (spawn cmd2 (_setdefault_kwargs kwargs)).stderr⟩) ∧
    (∀ e : ExecutableNotFoundError, resolve cmd = .error e → rc ≠ 1 →
      cmd_output_b resolve spawn cmd (some rc) kwargs
        = .error ⟨1, cmd, rc, some e.stdoutPayload, e.stderrPayload⟩) := by
  refine ⟨fun cmd2 hc hne => ?_, fun e he hne => ?_⟩
  · simp [cmd_output_b, hc, checkRetcode, hne]
  · simp [cmd_output_b, he, ExecutableNotFoundError.to_output, checkRetcode, hne]

/-- C3 -- witness: a concrete run exiting 7 against expectation 0 raises with
exactly the run's data. -/
theorem c3_mismatch_error_fields_witness :
    ((fun c => .ok c : Resolver) ["x", "y"] = .ok ["x", "y"] →
      (0 : Int) ≠ ((fun _ _ => ⟨7, some [97], some [98]⟩ : Spawn) ["x", "y"]
          (_setdefault_kwargs ⟨none, none, none⟩)).returncode →
      cmd_output_b (fun c => .ok c) (fun _ _ => ⟨7, some [97], some [98]⟩)
          ["x", "y"] (some 0) ⟨none, none, none⟩
        = .error ⟨((fun _ _ => ⟨7, some [97], some [98]⟩ : Spawn) ["x", "y"]
                      (_setdefault_kwargs ⟨none, none, none⟩)).returncode,
                  ["x", "y"], 0,
                  ((fun _ _ => ⟨7, some [97], some [98]⟩ : Spawn) ["x", "y"]
                      (_setdefault_kwargs ⟨none, none, none⟩)).stdout,
                  ((fun _ _ => ⟨7, some [97], some [98]⟩ : Spawn) ["x", "y"]
                      (_setdefault_kwargs ⟨none, none, none⟩)).stderr⟩) ∧
    cmd_output_b (fun c => .ok c) (fun _ _ => ⟨7, some [97], some [98]⟩)
        ["x", "y"] (some 0) ⟨none, none, none⟩
      = .error ⟨7, ["x", "y"], 0, some [97], some [98]⟩ :=
  ⟨fun h hne =>
    (c3_mismatch_error_fields (fun c => .ok c) (fun _ _ => ⟨7, some [97], some [98]⟩)
      ["x", "y"] ⟨none, none, none⟩ 0).1 ["x", "y"] h hne,
   (c3_mismatch_error_fields (fun c => .ok c) (fun _ _ => ⟨7, some [97], some [98]⟩)
      ["x", "y"] ⟨none, none, none⟩ 0).1 ["x", "y"] rfl (by decide)⟩

/-- The `Pty` session state: the read-end and write-end descriptors, each
`none` once closed (`self.r = None` / `self.w = None`). -/
structure Pty where
  r : Option Nat
  w : Option Nat
deriving DecidableEq, Repr

/-- Model of `Pty.close_w`: `if self.w is not None: os.close(self.w); self.w = None`.
Closing an already-closed write end does nothing. -/
def Pty.close_w (p : Pty) : Pty :=
  match p.w with
  | some _ => { p with w := none }
  | none => p

/-- Model of `Pty.close_r`: `assert self.r is not None; os.close(self.r); self.r = None`.
`some` is a normal return with the updated state; `none` is the
`AssertionError` raised when the read end is already closed. -/
def Pty.close_r (p : Pty) : Option Pty :=
  match p.r with
  | some _ => some { p with r := none }
  | none => none

/-- C4 -- counterexample. Closing the read end a second time is not a no-op:
starting from an open pty `⟨some 3, some 4⟩`, the first `close_r` returns
normally with the read end cleared, but a second `close_r` on that state hits
`assert self.r is not None` and fails (`none`), contradicting the claim that a
second close of either end returns normally. -/
theorem c4_counterexample :
    Pty.close_r ⟨some 3, some 4⟩ = some ⟨none, some 4⟩ ∧
    Pty.close_r ⟨none, some 4⟩ = none := by
  constructor <;> rfl

/-- C4 -- amended. Idempotent close holds only for the write end: on a pty
whose write end is already closed, `close_w` is a no-op returning the state
unchanged (and `close_w` is idempotent in general); for the read end, a first
`close_r` on an open pty succeeds, but `close_r` on a pty whose read end is
already closed fails with an `AssertionError` rather than being a no-op. -/
theorem c4_amended (p q o : Pty) (hp : p.w = none) (hq : q.r = none)
    (fd : Nat) (ho : o.r = some fd) :
    Pty.close_w p = p ∧
    Pty.close_w (Pty.close_w p) = Pty.close_w p ∧
    Pty.close_r q = none ∧
    Pty.close_r o = some { o with r := none } := by
  refine ⟨?_, ?_, ?_, ?_⟩
  · simp [Pty.close_w, hp]
  · simp [Pty.close_w, hp]
  · simp [Pty.close_r, hq]
  · simp [Pty.close_r, ho]

/-- C4 -- witness for the amended theorem at concrete pty states. -/
theorem c4_amended_witness :
    Pty.close_w ⟨some 3, none⟩ = ⟨some 3, none⟩ ∧
    Pty.close_w (Pty.close_w ⟨some 3, none⟩) = Pty.close_w ⟨some 3, none⟩ ∧
    Pty.close_r ⟨none, some 4⟩ = none ∧
    Pty.close_r ⟨some 3, some 4⟩ = some ⟨none, some 4⟩ :=
  c4_amended ⟨some 3, none⟩ ⟨none, some 4⟩ ⟨some 3, some 4⟩ rfl rfl 3 rfl

/-- Errno of `errno.EIO` on Linux: I/O error from a hung-up terminal. -/
def eioErrno : Nat := 5

/-- Errno of `errno.EACCES`: permission denied. -/
def EACCES : Nat := 13

/-- One outcome of an `os.read(pty.r, 4096)` call: either the returned chunk
(`b''` at end-of-stream) or an `OSError` with the given errno. -/
abbrev ReadEvent := Except Nat Bytes

/-- The errors `cmd_output_p` can raise: an `assert` failure, a missing-kwarg
`KeyError`, or an `OSError` (errno) propagated from the read loop. -/
inductive PErr
  | assertionError
  | keyError (key : String)
  | osError (errno : Nat)
deriving DecidableEq, Repr

/-- The read loop of `cmd_output_p`: repeatedly `os.read(pty.r, size)` (so each
consumed chunk is truncated to at most `size` bytes); a successful chunk is
appended to `buf` and an empty one breaks the loop; an `OSError` whose errno is
`EIO` is treated as an empty read (break), any other `OSError` propagates.
The event list is the successive outcomes the OS delivers. -/
def ptyDrain (size : Nat) : List ReadEvent → Bytes → Except Nat Bytes
  | [], buf => .ok buf
  | ev :: rest, buf =>
    match ev with
    | .error e => if e = eioErrno then .ok buf else .error e
    | .ok chunk =>
      let bts := chunk.take size
      if bts = [] then .ok buf else ptyDrain size rest (buf ++ bts)

/-- Model of `cmd_output_p(*cmd, retcode=0, **kwargs)`: assert the caller fixed
`retcode=None`, look up and assert `kwargs['stderr'] == subprocess.STDOUT`
(a missing key raises `KeyError`), default the kwargs, resolve the command
(returning `e.to_output()` directly on failure), then spawn with stdin from
`os.devnull` and both stdout and stderr on the pty write end, drain the pty
read end in 4096-byte reads, and return `(proc.wait(), buf, None)`.
`wait` is the oracle for `proc.wait()`, `events` the oracle for the reads. -/
def cmd_output_p (resolve : Resolver) (wait : List String → Kwargs → Int)
    (events : List ReadEvent) (cmd : List String)
    (retcode : Option Int) (kwargs : Kwargs) :
    Except PErr (Int × Bytes × Option Bytes) :=
  if retcode ≠ none then .error .assertionError
  else
    match kwargs.stderr with
    | none => .error (.keyError "stderr")
    | some cfg =>
      if cfg ≠ .stdoutMerge then .error .assertionError
      else
        let kwargs2 := _setdefault_kwargs kwargs
        match resolve cmd with
        | .error e => .ok e.to_output
        | .ok cmd2 =>
          let kwargs3 := { kwargs2 with
            stdin := some .devnullHandle
            stdout := some .ptyWrite
            stderr := some .ptyWrite }
          let rc := wait cmd2 kwargs3
          match ptyDrain 4096 events [] with
          | .error errno => .error (.osError errno)
          | .ok buf => .ok (rc, buf, none)

/-- Helper: draining a run of nonempty chunks followed by a clean end-of-stream
(`b''`) accumulates the 4096-truncated chunks in order. -/
theorem ptyDrain_ok_nil (chunks : List Bytes) (h : ∀ c ∈ chunks, c ≠ []) :
    ∀ buf : Bytes,
      ptyDrain 4096 (chunks.map Except.ok ++ [Except.ok []]) buf
        = .ok (buf ++ (chunks.map (fun c => c.take 4096)).flatten) := by
  induction chunks with
  | nil => intro buf; simp [ptyDrain]
  | cons c cs ih =>
    intro buf
    have hc : c ≠ [] := h c (by simp)
    have hc4 : c.take 4096 ≠ [] := by
      simp only [ne_eq, List.take_eq_nil_iff]
      simp [hc]
    simp only [List.map_cons, List.cons_append, ptyDrain, List.append_eq]
    rw [if_neg hc4, ih (fun x hx => h x (by simp [hx]))]
    simp

/-- Helper: draining a run of nonempty chunks followed by an `OSError` with
errno `EIO` ends the loop normally with the same accumulated buffer. -/
theorem ptyDrain_eio (chunks : List Bytes) (h : ∀ c ∈ chunks, c ≠ []) :
    ∀ buf : Bytes,
      ptyDrain 4096 (chunks.map Except.ok ++ [Except.error eioErrno]) buf
        = .ok (buf ++ (chunks.map (fun c => c.take 4096)).flatten) := by
  induction chunks with
  | nil => intro buf; simp [ptyDrain]
  | cons c cs ih =>
    intro buf
    have hc : c ≠ [] := h c (by simp)
    have hc4 : c.take 4096 ≠ [] := by
      simp only [ne_eq, List.take_eq_nil_iff]
      simp [hc]
    simp only [List.map_cons, List.cons_append, ptyDrain, List.append_eq]
    rw [if_neg hc4, ih (fun x hx => h x (by simp [hx]))]
    simp

/-- Helper: a read failure with any errno other than `EIO` propagates out of
the drain loop unchanged. -/
theorem ptyDrain_other_error (chunks : List Bytes) (h : ∀ c ∈ chunks, c ≠ [])
    (e : Nat) (he : e ≠ eioErrno) :
    ∀ buf : Bytes,
      ptyDrain 4096 (chunks.map Except.ok ++ [Except.error e]) buf = .error e := by
  induction chunks with
  | nil => intro buf; simp [ptyDrain, he]
  | cons c cs ih =>
    intro buf
    have hc : c ≠ [] := h c (by simp)
    have hc4 : c.take 4096 ≠ [] := by
      simp only [ne_eq, List.take_eq_nil_iff]
      simp [hc]
    simp only [List.map_cons, List.cons_append, ptyDrain, List.append_eq]
    rw [if_neg hc4]
    exact ih (fun x hx => h x (by simp [hx])) _

/-- C5: in pty mode, after spawning, `cmd_output_p` reads the pty read end in
4096-byte reads, accumulating into a buffer until a read returns zero bytes
(so the buffer is the concatenation of the 4096-truncated chunks); a read
failure with errno `EIO` ends the stream exactly like an empty read; a read
failure with any other errno propagates unchanged as that `OSError`; on
completion the result is the triple `(exit code, buffer, None)`. -/
theorem c5_pty_read_loop (resolve : Resolver) (wait : List String → Kwargs → Int)
    (cmd cmd2 : List String) (kwargs : Kwargs)
    (hk : kwargs.stderr = some .stdoutMerge) (hr : resolve cmd = .ok cmd2)
    (chunks : List Bytes) (hne : ∀ c ∈ chunks, c ≠ []) :
    (cmd_output_p resolve wait (chunks.map Except.ok ++ [Except.ok []]) cmd none kwargs
      = .ok (wait cmd2 { _setdefault_kwargs kwargs with
                stdin := some .devnullHandle
                stdout := some .ptyWrite
                stderr := some .ptyWrite },
             (chunks.map (fun c => c.take 4096)).flatten, none)) ∧
    (cmd_output_p resolve wait (chunks.map Except.ok ++ [Except.error eioErrno]) cmd none kwargs
      = .ok (wait cmd2 { _setdefault_kwargs kwargs with
                stdin := some .devnullHandle
                stdout := some .ptyWrite
                stderr := some .ptyWrite },
             (chunks.map (fun c => c.take 4096)).flatten, none)) ∧
    (∀ e : Nat, e ≠ eioErrno →
      cmd_output_p resolve wait (chunks.map Except.ok ++ [Except.error e]) cmd none kwargs
        = .error (.osError e)) := by
  refine ⟨?_, ?_, fun e he => ?_⟩
  · simp [cmd_output_p, hk, hr, ptyDrain_ok_nil chunks hne []]
  · simp [cmd_output_p, hk, hr, ptyDrain_eio chunks hne []]
  · simp [cmd_output_p, hk, hr, ptyDrain_other_error chunks hne e he []]

/-- C5 -- witness: two nonempty chunks `[97]` and `[98, 99]` followed by each
of the three endings, at a concrete resolver and wait oracle. -/
theorem c5_pty_read_loop_witness :
    (cmd_output_p (fun c => .ok c) (fun _ _ => 7)
        ([[97], [98, 99]].map Except.ok ++ [Except.ok []]) ["x"] none ⟨none, none, some .stdoutMerge⟩
      = .ok ((fun (_ : List String) (_ : Kwargs) => (7 : Int)) ["x"]
               { _setdefault_kwargs ⟨none, none, some .stdoutMerge⟩ with
                 stdin := some .devnullHandle
                 stdout := some .ptyWrite
                 stderr := some .ptyWrite },
             ([[97], [98, 99]].map (fun c => List.take 4096 c)).flatten, none)) ∧
    (cmd_output_p (fun c => .ok c) (fun _ _ => 7)
        ([[97], [98, 99]].map Except.ok ++ [Except.error eioErrno]) ["x"] none
        ⟨none, none, some .stdoutMerge⟩
      = .ok ((fun (_ : List String) (_ : Kwargs) => (7 : Int)) ["x"]
               { _setdefault_kwargs ⟨none, none, some .stdoutMerge⟩ with
                 stdin := some .devnullHandle
                 stdout := some .ptyWrite
                 stderr := some .ptyWrite },
             ([[97], [98, 99]].map (fun c => List.take 4096 c)).flatten, none)) ∧
    (∀ e : Nat, e ≠ eioErrno →
      cmd_output_p (fun c => .ok c) (fun _ _ => 7)
          ([[97], [98, 99]].map Except.ok ++ [Except.error e]) ["x"] none
          ⟨none, none, some .stdoutMerge⟩
        = .error (.osError e)) :=
  c5_pty_read_loop (fun c => .ok c) (fun _ _ => 7) ["x"] ["x"]
    ⟨none, none, some .stdoutMerge⟩ rfl rfl [[97], [98, 99]] (by decide)

/-- C10: every call to `cmd_output_p` that violates its caller contract fails
before the resolver is consulted or any process is spawned: with `retcode` not
the `None` sentinel it fails the first `assert` (for every resolver, wait
oracle and event trace alike — the result is a constant, so the resolver is
never consulted); with no `stderr` kwarg it fails the `kwargs['stderr']`
lookup with a `KeyError`; with a `stderr` kwarg that is not
`subprocess.STDOUT` it fails the second `assert`. -/
theorem c10_contract_asserts (resolve : Resolver) (wait : List String → Kwargs → Int)
    (events : List ReadEvent) (cmd : List String) (kwargs : Kwargs) :
    (∀ rc : Int,
      cmd_output_p resolve wait events cmd (some rc) kwargs = .error .assertionError) ∧
    (kwargs.stderr = none →
      cmd_output_p resolve wait events cmd none kwargs = .error (.keyError "stderr")) ∧
    (∀ cfg : StreamCfg, kwargs.stderr = some cfg → cfg ≠ .stdoutMerge →
      cmd_output_p resolve wait events cmd none kwargs = .error .assertionError) := by
  refine ⟨fun rc => ?_, fun h => ?_, fun cfg h hne => ?_⟩
  · simp [cmd_output_p]
  · simp [cmd_output_p, h]
  · simp [cmd_output_p, h, hne]

/-- C10 -- witness at concrete arguments: `retcode=0`, a missing `stderr`
kwarg, and `stderr=subprocess.PIPE`. -/
theorem c10_contract_asserts_witness :
    ((∀ rc : Int,
      cmd_output_p (fun c => .ok c) (fun _ _ => 0) [] ["x"] (some rc) ⟨none, none, none⟩
        = .error .assertionError) ∧
    ((⟨none, none, none⟩ : Kwargs).stderr = none →
      cmd_output_p (fun c => .ok c) (fun _ _ => 0) [] ["x"] none ⟨none, none, none⟩
        = .error (.keyError "stderr")) ∧
    (∀ cfg : StreamCfg, (⟨none, none, none⟩ : Kwargs).stderr = some cfg →
      cfg ≠ .stdoutMerge →
      cmd_output_p (fun c => .ok c) (fun _ _ => 0) [] ["x"] none ⟨none, none, none⟩
        = .error .assertionError)) ∧
    cmd_output_p (fun c => .ok c) (fun _ _ => 0) [] ["x"] none ⟨none, none, some .pipe⟩
      = .error .assertionError :=
  ⟨c10_contract_asserts (fun c => .ok c) (fun _ _ => 0) [] ["x"] ⟨none, none, none⟩,
   (c10_contract_asserts (fun c => .ok c) (fun _ _ => 0) [] ["x"]
      ⟨none, none, some .pipe⟩).2.2 .pipe rfl (by decide)⟩

/-- Whether a byte is a UTF-8 continuation byte (`0x80..0xBF`). -/
def utf8Cont (b : Nat) : Prop := 0x80 ≤ b ∧ b < 0xC0

instance (b : Nat) : Decidable (utf8Cont b) := by
  unfold utf8Cont; infer_instance

/-- Python's strict `bytes.decode()` (UTF-8): decode a byte list into a list of
code points, rejecting stray continuation bytes, overlong encodings,
surrogates, code points above `0x10FFFF` and truncated sequences (`none`
models the raised `UnicodeDecodeError`). -/
def utf8Decode : List Nat → Option (List Nat)
  | [] => some []
  | b :: rest =>
    if b < 0x80 then (utf8Decode rest).map (b :: ·)
    else if b < 0xC2 then none
    else if b < 0xE0 then
      match rest with
      | b1 :: rest2 =>
        if utf8Cont b1 then
          (utf8Decode rest2).map (((b - 0xC0) * 0x40 + (b1 - 0x80)) :: ·)
        else none
      | [] => none
    else if b < 0xF0 then
      match rest with
      | b1 :: b2 :: rest2 =>
        if utf8Cont b1 ∧ utf8Cont b2 then
          let c := (b - 0xE0) * 0x1000 + (b1 - 0x80) * 0x40 + (b2 - 0x80)
          if c < 0x800 ∨ (0xD800 ≤ c ∧ c ≤ 0xDFFF) then none
          else (utf8Decode rest2).map (c :: ·)
        else none
      | _ => none
    else if b < 0xF5 then
      match rest with
      | b1 :: b2 :: b3 :: rest2 =>
        if utf8Cont b1 ∧ utf8Cont b2 ∧ utf8Cont b3 then
          let c := (b - 0xF0) * 0x40000 + (b1 - 0x80) * 0x1000
                     + (b2 - 0x80) * 0x40 + (b3 - 0x80)
          if c < 0x10000 ∨ 0x10FFFF < c then none
          else (utf8Decode rest2).map (c :: ·)
        else none
      | _ => none
    else none

/-- The errors `cmd_output` can raise: the `CalledProcessError` propagated from
`cmd_output_b`, or a `UnicodeDecodeError` from `.decode()`. -/
inductive TextErr
  | calledProcess (e : CalledProcessError)
  | unicodeDecode
deriving DecidableEq, Repr

/-- One line of `cmd_output`: `x.decode() if x is not None else None`; an
absent stream stays absent, a present stream is UTF-8-decoded (raising
`UnicodeDecodeError` on invalid bytes). -/
def decodeOrNone (ob : Option Bytes) : Except TextErr (Option PyStr) :=
  match ob with
  | none => .ok none
  | some b =>
    match utf8Decode b with
    | some s => .ok (some s)
    | none => .error .unicodeDecode

/-- Model of `cmd_output(*cmd, **kwargs)`: call `cmd_output_b`, then decode stdout and
stderr independently, each only when present, and return the decoded triple. -/
def cmd_output (resolve : Resolver) (spawn : Spawn) (cmd : List String)
    (retcode : Option Int) (kwargs : Kwargs) :
    Except TextErr (Int × Option PyStr × Option PyStr) :=
  match cmd_output_b resolve spawn cmd retcode kwargs with
  | .error e => .error (.calledProcess e)
  | .ok (returncode, stdout_b, stderr_b) => do
    let stdout ← decodeOrNone stdout_b
    let stderr ← decodeOrNone stderr_b
    return (returncode, stdout, stderr)

/-- C6: `cmd_output` is exactly `cmd_output_b` with the two streams
UTF-8-decoded independently and only when present: a raised
`CalledProcessError` passes through undecoded; an absent stream stays absent;
a present stream of valid UTF-8 comes back decoded, so for outputs containing
only valid UTF-8 the byte-mode and text-mode results agree after decoding. -/
theorem c6_text_decode (resolve : Resolver) (spawn : Spawn) (cmd : List String)
    (retcode : Option Int) (kwargs : Kwargs) :
    (∀ e : CalledProcessError,
      cmd_output_b resolve spawn cmd retcode kwargs = .error e →
      cmd_output resolve spawn cmd retcode kwargs = .error (.calledProcess e)) ∧
    (∀ (rc : Int) (eb : Option Bytes) (se : Option PyStr),
      cmd_output_b resolve spawn cmd retcode kwargs = .ok (rc, none, eb) →
      decodeOrNone eb = .ok se →
      cmd_output resolve spawn cmd retcode kwargs = .ok (rc, none, se)) ∧
    (∀ (rc : Int) (ob : Bytes) (so : PyStr) (eb : Option Bytes) (se : Option PyStr),
      cmd_output_b resolve spawn cmd retcode kwargs = .ok (rc, some ob, eb) →
      utf8Decode ob = some so →
      decodeOrNone eb = .ok se →
      cmd_output resolve spawn cmd retcode kwargs = .ok (rc, some so, se)) ∧
    (∀ (rc : Int) (ob eb : Option Bytes),
      cmd_output_b resolve spawn cmd retcode kwargs = .ok (rc, ob, eb) →
      cmd_output resolve spawn cmd retcode kwargs
        = (do
            let stdout ← decodeOrNone ob
            let stderr ← decodeOrNone eb
            return (rc, stdout, stderr))) := by
  have h4 : ∀ (rc : Int) (ob eb : Option Bytes),
      cmd_output_b resolve spawn cmd retcode kwargs = .ok (rc, ob, eb) →
      cmd_output resolve spawn cmd retcode kwargs
        = (do
            let stdout ← decodeOrNone ob
            let stderr ← decodeOrNone eb
            return (rc, stdout, stderr)) := by
    intro rc ob eb hb
    simp [cmd_output, hb]
  refine ⟨fun e he => ?_, fun rc eb se hb hd => ?_, fun rc ob so eb se hb ho hd => ?_, h4⟩
  · simp [cmd_output, he]
  · rw [h4 rc none eb hb]
    simp only [hd]
    simp [decodeOrNone, Bind.bind, Except.bind, Pure.pure, Except.pure]
  · rw [h4 rc (some ob) eb hb]
    simp only [hd]
    simp [decodeOrNone, ho, Bind.bind, Except.bind, Pure.pure, Except.pure]

/-- C6 -- witness: a run producing stdout `"hi"` (bytes `[104, 105]`) and an
absent stderr decodes to `(0, some "hi", none)` with the absent stream
staying absent. -/
theorem c6_text_decode_witness :
    cmd_output_b (fun c => .ok c) (fun _ _ => ⟨0, some [104, 105], none⟩)
        ["x"] (some 0) ⟨none, none, none⟩ = .ok (0, some [104, 105], none) ∧
    cmd_output (fun c => .ok c) (fun _ _ => ⟨0, some [104, 105], none⟩)
        ["x"] (some 0) ⟨none, none, none⟩ = .ok (0, some [104, 105], none) :=
  ⟨by rfl,
   (c6_text_decode (fun c => .ok c) (fun _ _ => ⟨0, some [104, 105], none⟩)
      ["x"] (some 0) ⟨none, none, none⟩).2.2.1 0 [104, 105] [104, 105] none none
      (by rfl) (by rfl) (by rfl)⟩

/-- A simple filesystem view for `clean_path_on_failure`: the set of existing
paths, as a list. -/
abbrev FS := List String

/-- Model of `os.path.exists`. -/
def pathExists (p : String) (fs : FS) : Bool := decide (p ∈ fs)

/-- Whether `q` is `p` itself or lies below the directory `p` (so a recursive
removal of `p` deletes it). -/
def underPath (p q : String) : Bool := q == p || (p ++ "/").isPrefixOf q

/-- Denotation of `rmtree(path)` on the path-set view: a recursive, forced
delete removes the path and everything under it. -/
def rmtreeFS (p : String) (fs : FS) : FS := fs.filter (fun q => !(underPath p q))

/-- Model of `clean_path_on_failure(path)`: run the wrapped scope (`yield`);
on a normal exit return its result untouched; if it exits with an exception
(`except BaseException`), remove the path recursively if it exists
(`if os.path.exists(path): rmtree(path)`) and re-raise the same exception
(`raise`). A scope maps the filesystem to either a normal result or an
exception token paired with the filesystem at the time of the failure. -/
def clean_path_on_failure (path : String) (scope : FS → Except (Nat × FS) FS)
    (fs : FS) : Except (Nat × FS) FS :=
  match scope fs with
  | .ok fs2 => .ok fs2
  | .error (e, fs2) =>
    if pathExists path fs2 then .error (e, rmtreeFS path fs2)
    else .error (e, fs2)

/-- C7: `clean_path_on_failure` behaves as specified in all three cases: if the
scope exits via an error and the path exists, the path (and everything under
it) is removed recursively and the original error token is re-raised
unchanged; if the scope errors and the path does not exist, the error is
re-raised with no removal at all; if the scope completes normally, the result
is returned untouched (the path is left in place). -/
theorem c7_clean_path (path : String) (scope : FS → Except (Nat × FS) FS) (fs : FS) :
    (∀ e fs2, scope fs = .error (e, fs2) → pathExists path fs2 = true →
      clean_path_on_failure path scope fs = .error (e, rmtreeFS path fs2) ∧
      (∀ q, underPath path q = true → pathExists q (rmtreeFS path fs2) = false)) ∧
    (∀ e fs2, scope fs = .error (e, fs2) → pathExists path fs2 = false →
      clean_path_on_failure path scope fs = .error (e, fs2)) ∧
    (∀ fs2, scope fs = .ok fs2 →
      clean_path_on_failure path scope fs = .ok fs2) := by
  refine ⟨fun e fs2 hs hex => ⟨?_, fun q hq => ?_⟩, fun e fs2 hs hex => ?_,
    fun fs2 hs => ?_⟩
  · simp [clean_path_on_failure, hs, hex]
  · simp only [pathExists, rmtreeFS, decide_eq_false_iff_not, List.mem_filter]
    rintro ⟨-, habs⟩
    rw [hq] at habs
    simp at habs
  · simp [clean_path_on_failure, hs, hex]
  · simp [clean_path_on_failure, hs]

/-- C7 -- witness: a scope that fails with exception token 42 leaving
`["d", "d/f", "other"]` behind, wrapped with path `"d"`: the re-raised error
carries the cleaned filesystem `["other"]`; plus the no-removal and
normal-exit cases at concrete scopes. -/
theorem c7_clean_path_witness :
    (clean_path_on_failure "d" (fun _ => .error (42, ["d", "d/f", "other"])) []
        = .error (42, rmtreeFS "d" ["d", "d/f", "other"]) ∧
      (∀ q, underPath "d" q = true →
        pathExists q (rmtreeFS "d" ["d", "d/f", "other"]) = false)) ∧
    clean_path_on_failure "d" (fun _ => .error (42, ["other"])) []
      = .error (42, ["other"]) ∧
    clean_path_on_failure "d" (fun _ => .ok ["d", "keep"]) []
      = .ok ["d", "keep"] :=
  ⟨(c7_clean_path "d" (fun _ => .error (42, ["d", "d/f", "other"])) []).1
      42 ["d", "d/f", "other"] rfl (by decide),
   (c7_clean_path "d" (fun _ => .error (42, ["other"])) []).2.1
      42 ["other"] rfl (by decide),
   (c7_clean_path "d" (fun _ => .ok ["d", "keep"]) []).2.2
      ["d", "keep"] rfl⟩

/-- Permission-bit constant `stat.S_IXUSR` (octal 100). -/
def S_IXUSR : Nat := 64

/-- Permission-bit constant `stat.S_IXGRP` (octal 10). -/
def S_IXGRP : Nat := 8

/-- Permission-bit constant `stat.S_IXOTH` (octal 1). -/
def S_IXOTH : Nat := 1

/-- Permission-bit constant `stat.S_IWUSR` (octal 200). -/
def S_IWUSR : Nat := 128

/-- Model of `make_executable` on a file's permission mode:
`new_mode = original_mode | stat.S_IXUSR | stat.S_IXGRP | stat.S_IXOTH`,
then `os.chmod(filename, new_mode)`. -/
def make_executable (mode : Nat) : Nat :=
  mode ||| S_IXUSR ||| S_IXGRP ||| S_IXOTH

/-- C9: for every starting permission set, `make_executable` sets all three
execute bits (owner bit 6, group bit 3, other bit 0) and leaves every other
bit of the mode (in particular all read/write bits) exactly as it was. -/
theorem c9_make_executable (m : Nat) :
    (make_executable m).testBit 6 = true ∧
    (make_executable m).testBit 3 = true ∧
    (make_executable m).testBit 0 = true ∧
    (∀ i : Nat, i ≠ 6 → i ≠ 3 → i ≠ 0 →
      (make_executable m).testBit i = m.testBit i) := by
  refine ⟨?_, ?_, ?_, fun i h6 h3 h0 => ?_⟩
  · simp +decide [make_executable, S_IXUSR, S_IXGRP, S_IXOTH, Nat.testBit_lor]
  · simp +decide [make_executable, S_IXUSR, S_IXGRP, S_IXOTH, Nat.testBit_lor]
  · simp +decide [make_executable, S_IXUSR, S_IXGRP, S_IXOTH, Nat.testBit_lor]
  · simp only [make_executable, S_IXUSR, S_IXGRP, S_IXOTH, Nat.testBit_lor]
    rcases Nat.lt_or_ge i 7 with hlt | hge
    · have hb : ∀ j, j < 7 → j ≠ 6 → j ≠ 3 → j ≠ 0 →
          ((64 : Nat).testBit j = false ∧ (8 : Nat).testBit j = false ∧
            (1 : Nat).testBit j = false) := by decide
      obtain ⟨ha, hbb, hcc⟩ := hb i hlt h6 h3 h0
      simp [ha, hbb, hcc]
    · have hpow : (2 : Nat) ^ 7 ≤ 2 ^ i := Nat.pow_le_pow_right (by norm_num) hge
      have h64 : (64 : Nat).testBit i = false :=
        Nat.testBit_lt_two_pow (lt_of_lt_of_le (by norm_num) hpow)
      have h8 : (8 : Nat).testBit i = false :=
        Nat.testBit_lt_two_pow (lt_of_lt_of_le (by norm_num) hpow)
      have h1 : (1 : Nat).testBit i = false :=
        Nat.testBit_lt_two_pow (lt_of_lt_of_le (by norm_num) hpow)
      simp [h64, h8, h1]

/-- C9 -- witness at mode `0o644` (420) and non-execute bit position 1. -/
theorem c9_make_executable_witness :
    (make_executable 420).testBit 6 = true ∧
    (make_executable 420).testBit 3 = true ∧
    (make_executable 420).testBit 0 = true ∧
    (make_executable 420).testBit 1 = (420 : Nat).testBit 1 :=
  ⟨(c9_make_executable 420).1, (c9_make_executable 420).2.1,
   (c9_make_executable 420).2.2.1,
   (c9_make_executable 420).2.2.2 1 (by decide) (by decide) (by decide)⟩

/-- A filesystem view with permission modes for `rmtree`: each existing path
maps to its `st_mode` bits, an absent path to `none`. -/
abbrev ModeFS := String → Option Nat

/-- Model of `os.stat(p).st_mode` (the handler only stats existing paths). -/
def statMode (fs : ModeFS) (p : String) : Nat := (fs p).getD 0

/-- Model of `os.chmod(p, m)`. -/
def chmodFS (fs : ModeFS) (p : String) (m : Nat) : ModeFS :=
  fun q => if q = p then some m else fs q

/-- One iteration of `os.chmod(p, os.stat(p).st_mode | stat.S_IWUSR)`: clear
the read-only attribute by adding the owner-write bit to `p`'s mode. -/
def addWriteBit (fs : ModeFS) (p : String) : ModeFS :=
  chmodFS fs p (statMode fs p ||| S_IWUSR)

/-- Model of `os.path.dirname` (posix): everything up to the last slash, with
trailing slashes stripped unless the head is all slashes; empty when the path
has no slash. -/
def dirnameChars (cs : List Char) : List Char :=
  let r := (cs.reverse).dropWhile (fun c => c ≠ '/')
  if r.isEmpty then []
  else if r.all (fun c => c = '/') then r.reverse
  else ((r.dropWhile (fun c => c = '/')).reverse)

/-- Model of `os.path.dirname` on strings. -/
def dirname (p : String) : String := String.mk (dirnameChars p.data)

/-- The OS functions `shutil.rmtree` can hand to its `onerror` callback: the
remove/unlink/rmdir delete operations, or another operation class (such as
`os.scandir` / `os.open` while walking the tree). -/
inductive OpFunc
  | rmdir
  | remove
  | unlink
  | other (name : String)
deriving DecidableEq, Repr

/-- Test for `func in (os.rmdir, os.remove, os.unlink)`. -/
def deleteClass : OpFunc → Bool
  | .rmdir => true
  | .remove => true
  | .unlink => true
  | .other _ => false

/-- Effect of a successful delete operation on the filesystem (non-delete
operations such as directory scans do not change it). -/
def applyDelete (func : OpFunc) (path : String) (fs : ModeFS) : ModeFS :=
  if deleteClass func then fun q => if q = path then none else fs q else fs

/-- Model of the `handle_remove_readonly` callback installed as
`shutil.rmtree(path, ignore_errors=False, onerror=...)`: if the failing
function is one of `os.rmdir`/`os.remove`/`os.unlink` and the exception's
errno is `EACCES`, chmod the failing path and then its parent directory to
add the owner-write bit and retry the failing operation once (`func(path)`,
whose outcome `retry` delivers); otherwise re-raise the original error. -/
def handle_remove_readonly (retry : ModeFS → Except Nat ModeFS)
    (func : OpFunc) (path : String) (excErrno : Nat) (fs : ModeFS) :
    Except Nat ModeFS :=
  if deleteClass func && (excErrno == EACCES) then
    retry (addWriteBit (addWriteBit fs path) (dirname path))
  else
    .error excErrno

/-- One operation `shutil.rmtree` attempts while deleting the tree, as an
event: which function on which path, whether the first attempt fails (and
with which errno), and -- when the handler retries -- whether the retried
call fails (and with which errno). -/
structure RmStep where
  func : OpFunc
  path : String
  outcome : Option Nat
  retryOutcome : Option Nat
deriving DecidableEq, Repr

/-- Run one `shutil.rmtree` operation: a successful attempt applies the
delete; a failing attempt invokes `handle_remove_readonly`, whose retry
(`func(path)`) either applies the delete on the chmod-ed filesystem or
raises its own error. -/
def runRmStep (fs : ModeFS) (s : RmStep) : Except Nat ModeFS :=
  match s.outcome with
  | none => .ok (applyDelete s.func s.path fs)
  | some e =>
    handle_remove_readonly
      (fun fs2 =>
        match s.retryOutcome with
        | none => .ok (applyDelete s.func s.path fs2)
        | some e2 => .error e2)
      s.func s.path e fs

/-- Model of `rmtree(path)`: a standard recursive delete, as the sequence of
delete operations `shutil.rmtree` attempts on the tree, each handled by
`runRmStep`; the first unhandled error aborts the walk and propagates. -/
def rmtree : List RmStep → ModeFS → Except Nat ModeFS
  | [], fs => .ok fs
  | s :: rest, fs =>
    match runRmStep fs s with
    | .ok fs2 => rmtree rest fs2
    | .error e => .error e

/-- C8: `rmtree` performs a standard recursive delete (successful operations
just delete and the walk continues); when a delete step fails with `EACCES`
on an `rmdir`/`remove`/`unlink`-class operation, the handler adds the
owner-write bit to both the failing path and its parent directory -- touching
no other path -- and retries that single failing operation exactly once,
whose success deletes on the chmod-ed filesystem and whose failure
propagates; a failure with any other errno, or on any other operation class,
propagates unchanged. -/
theorem c8_rmtree_retry (fs : ModeFS) (s : RmStep) :
    (s.outcome = none → runRmStep fs s = .ok (applyDelete s.func s.path fs)) ∧
    (∀ rest : List RmStep, s.outcome = none →
      rmtree (s :: rest) fs = rmtree rest (applyDelete s.func s.path fs)) ∧
    (∀ e : Nat, s.outcome = some e → deleteClass s.func = true → e = EACCES →
      s.retryOutcome = none →
      runRmStep fs s
        = .ok (applyDelete s.func s.path
            (addWriteBit (addWriteBit fs s.path) (dirname s.path)))) ∧
    (∀ e e2 : Nat, s.outcome = some e → deleteClass s.func = true →
      e = EACCES → s.retryOutcome = some e2 → runRmStep fs s = .error e2) ∧
    (∀ e : Nat, s.outcome = some e → deleteClass s.func = false ∨ e ≠ EACCES →
      runRmStep fs s = .error e) ∧
    (∀ e : Nat, ∀ rest : List RmStep, runRmStep fs s = .error e →
      rmtree (s :: rest) fs = .error e) ∧
    ((statMode (addWriteBit (addWriteBit fs s.path) (dirname s.path))
        s.path).testBit 7 = true ∧
      (statMode (addWriteBit (addWriteBit fs s.path) (dirname s.path))
        (dirname s.path)).testBit 7 = true) ∧
    (∀ q : String, q ≠ s.path → q ≠ dirname s.path →
      statMode (addWriteBit (addWriteBit fs s.path) (dirname s.path)) q
        = statMode fs q) := by
  have hself : ∀ (g : ModeFS) (p : String),
      statMode (addWriteBit g p) p = statMode g p ||| S_IWUSR := by
    intro g p
    simp [statMode, addWriteBit, chmodFS]
  have hother : ∀ (g : ModeFS) (p q : String), q ≠ p →
      statMode (addWriteBit g p) q = statMode g q := by
    intro g p q hq
    simp [statMode, addWriteBit, chmodFS, hq]
  have hbit : ∀ n : Nat, (n ||| S_IWUSR).testBit 7 = true := by
    intro n
    simp +decide [S_IWUSR, Nat.testBit_lor]
  refine ⟨fun h => ?_, fun rest h => ?_, fun e h hdel hacc hr => ?_,
    fun e e2 h hdel hacc hr => ?_, fun e h hor => ?_, fun e rest h => ?_,
    ⟨?_, ?_⟩, fun q hq1 hq2 => ?_⟩
  · simp [runRmStep, h]
  · simp [rmtree, runRmStep, h]
  · simp [runRmStep, h, handle_remove_readonly, hdel, hacc, EACCES, hr]
  · simp [runRmStep, h, handle_remove_readonly, hdel, hacc, EACCES, hr]
  · rcases hor with hdel | hacc
    · simp [runRmStep, h, handle_remove_readonly, hdel]
    · simp [runRmStep, h, handle_remove_readonly, hacc]
  · simp [rmtree, h]
  · by_cases hd : dirname s.path = s.path
    · rw [hd, hself, hbit]
    · rw [hother _ _ _ (fun hc => hd hc.symm), hself, hbit]
  · rw [hself, hbit]
  · rw [hother _ _ _ hq2, hother _ _ _ hq1]

/-- C8 -- witness: a concrete tree `d` containing a read-only file `d/f`
(mode 0o444), where unlinking `d/f` first fails with `EACCES` and the retry
succeeds, plus a non-`EACCES` failure and a non-delete-class failure that
propagate; owner-write bits are set on `d/f` and `d` only. -/
theorem c8_rmtree_retry_witness :
    (runRmStep (fun q => if q = "d/f" then some 292 else if q = "d" then some 365 else none)
        ⟨.unlink, "d/f", some 13, none⟩
      = .ok (applyDelete .unlink "d/f"
          (addWriteBit (addWriteBit
            (fun q => if q = "d/f" then some 292 else if q = "d" then some 365 else none)
            "d/f") (dirname "d/f")))) ∧
    (runRmStep (fun q => if q = "d/f" then some 292 else if q = "d" then some 365 else none)
        ⟨.unlink, "d/f", some 13, some 13⟩ = .error 13) ∧
    (runRmStep (fun q => if q = "d/f" then some 292 else if q = "d" then some 365 else none)
        ⟨.unlink, "d/f", some 2, none⟩ = .error 2) ∧
    (runRmStep (fun q => if q = "d/f" then some 292 else if q = "d" then some 365 else none)
        ⟨.other "scandir", "d", some 13, none⟩ = .error 13) ∧
    (statMode (addWriteBit (addWriteBit
        (fun q => if q = "d/f" then some 292 else if q = "d" then some 365 else none)
        "d/f") (dirname "d/f")) "d/f").testBit 7 = true ∧
    (statMode (addWriteBit (addWriteBit
        (fun q => if q = "d/f" then some 292 else if q = "d" then some 365 else none)
        "d/f") (dirname "d/f")) (dirname "d/f")).testBit 7 = true ∧
    statMode (addWriteBit (addWriteBit
        (fun q => if q = "d/f" then some 292 else if q = "d" then some 365 else none)
        "d/f") (dirname "d/f")) "other"
      = statMode (fun q => if q = "d/f" then some 292 else if q = "d" then some 365 else none)
          "other" :=
  ⟨(c8_rmtree_retry (fun q => if q = "d/f" then some 292 else if q = "d" then some 365 else none)
      ⟨.unlink, "d/f", some 13, none⟩).2.2.1 13 rfl rfl rfl rfl,
   (c8_rmtree_retry (fun q => if q = "d/f" then some 292 else if q = "d" then some 365 else none)
      ⟨.unlink, "d/f", some 13, some 13⟩).2.2.2.1 13 13 rfl rfl rfl rfl,
   (c8_rmtree_retry (fun q => if q = "d/f" then some 292 else if q = "d" then some 365 else none)
      ⟨.unlink, "d/f", some 2, none⟩).2.2.2.2.1 2 rfl (Or.inr (by decide)),
   (c8_rmtree_retry (fun q => if q = "d/f" then some 292 else if q = "d" then some 365 else none)
      ⟨.other "scandir", "d", some 13, none⟩).2.2.2.2.1 13 rfl (Or.inl rfl),
   (c8_rmtree_retry (fun q => if q = "d/f" then some 292 else if q = "d" then some 365 else none)
      ⟨.unlink, "d/f", some 13, none⟩).2.2.2.2.2.2.1.1,
   (c8_rmtree_retry (fun q => if q = "d/f" then some 292 else if q = "d" then some 365 else none)
      ⟨.unlink, "d/f", some 13, none⟩).2.2.2.2.2.2.1.2,
   (c8_rmtree_retry (fun q => if q = "d/f" then some 292 else if q = "d" then some 365 else none)
      ⟨.unlink, "d/f", some 13, none⟩).2.2.2.2.2.2.2 "other" (by decide) (by decide)⟩
